import Mathlib

/-!
Shallow embedding of pyEPR/project_info.py (class ProjectInfo and its inner
class _Dissipative), together with a small model of the external Ansys
automation surface that the module drives.  Pure state is passed explicitly;
Python exceptions become `Except` errors; calls into the external tool that
matter to the connection lifecycle (handle releases, default-setup creation)
are recorded in an event trace.
-/

/-- Python exception values raised by the embedded code. -/
inductive PyErr where
  | valueError (msg : String)
  | typeError (msg : String)
  | attributeError (msg : String)
  | assertionError (msg : String)
  | exception (msg : String)
deriving DecidableEq, Repr

/-- Externally visible calls into the Ansys tool that the claims talk about:
handle releases and default-setup creation. -/
inductive Ev where
  | releaseProject
  | releaseDesktop
  | releaseApp
  | releaseAnsys
  | createEmSetup
  | createDmSetup
  | createDtSetup
  | createQ3dSetup
deriving DecidableEq, Repr

/-- An element of a Python collection as the dissipative write path sees it:
either a string or some non-string value (tagged by an integer code).  The
write path only ever distinguishes strings from non-strings. -/
inductive PyAtom where
  | str (s : String)
  | int (n : Int)
deriving DecidableEq, Repr

/-- Python values that can be stored in the dissipative configuration slots. -/
inductive PyVal where
  | none
  | pinfoRef
  | str (s : String)
  | int (n : Int)
  | list (xs : List PyAtom)
  | dict (keys : List PyAtom)
deriving DecidableEq, Repr

/-- A setup handle of the external tool: carries its name. -/
structure AnsysSetup where
  name : String
deriving DecidableEq, Repr

/-- A design handle of the fake external-tool double: name, solution type,
setup-name list, design-scope variable names, the name the tool would assign
to a created default setup, and the modeler object groups. -/
structure AnsysDesign where
  name : String
  solution_type : String
  setup_names : List String
  variable_names : List String
  default_setup_name : String
  groups : List (String × List String)
deriving DecidableEq, Repr

/-- A project handle of the fake external-tool double. -/
structure AnsysProject where
  name : String
  path : String
  designs : List AnsysDesign
  active_design : Option AnsysDesign
  variable_names : List String
deriving DecidableEq, Repr

/-- Modelled from the spec: the tool-session factory (ansys.load_ansys_project
lives outside src); it returns opaque app/desktop handles and a project handle,
any of which may be null. -/
structure Ansys where
  load_app : Option Unit
  load_desktop : Option Unit
  load_project : Option AnsysProject
deriving DecidableEq, Repr

/-- Modelled from the spec: project handle lists its designs. -/
def AnsysProject.get_designs (p : AnsysProject) : List AnsysDesign :=
  p.designs

/-- Modelled from the spec: project handle resolves a named design, null when
absent (the caller turns null lookup into a raised error). -/
def AnsysProject.get_design (p : AnsysProject) (name : String) : Option AnsysDesign :=
  p.designs.find? (fun d => d.name = name)

/-- Modelled from the spec: project handle returns the currently active design
or null when there is none. -/
def AnsysProject.get_active_design (p : AnsysProject) : Option AnsysDesign :=
  p.active_design

/-- Modelled from the spec: design handle resolves a named setup, null when
absent. -/
def AnsysDesign.get_setup (d : AnsysDesign) (name : String) : Option AnsysSetup :=
  if name ∈ d.setup_names then some ⟨name⟩ else none

/-- Modelled from the spec: design handle lists its setup names. -/
def AnsysDesign.get_setup_names (d : AnsysDesign) : List String :=
  d.setup_names

/-- Modelled from the spec: creating a default setup registers a setup under
the tool-assigned default name and returns its handle. -/
def AnsysDesign.create_default_setup (d : AnsysDesign) : AnsysSetup × AnsysDesign :=
  (⟨d.default_setup_name⟩,
   { d with setup_names := d.setup_names ++ [d.default_setup_name] })

/-- Modelled from the spec: eigenmode default-setup creation. -/
def AnsysDesign.create_em_setup (d : AnsysDesign) : AnsysSetup × AnsysDesign :=
  d.create_default_setup

/-- Modelled from the spec: driven-modal default-setup creation. -/
def AnsysDesign.create_dm_setup (d : AnsysDesign) : AnsysSetup × AnsysDesign :=
  d.create_default_setup

/-- Modelled from the spec: driven-terminal default-setup creation. -/
def AnsysDesign.create_dt_setup (d : AnsysDesign) : AnsysSetup × AnsysDesign :=
  d.create_default_setup

/-- Modelled from the spec: Q3D default-setup creation. -/
def AnsysDesign.create_q3d_setup (d : AnsysDesign) : AnsysSetup × AnsysDesign :=
  d.create_default_setup

/-- Modelled from the spec: the modeler lists object names by group category. -/
def AnsysDesign.get_objects_in_group (d : AnsysDesign) (g : String) : List String :=
  (d.groups.lookup g).getD []

/-- A junction entry of ProjectInfo.junctions (see the class docstring:
Lj_variable, optional Cj_variable, rect, line, length). -/
structure Junction where
  Lj_variable : String
  Cj_variable : Option String
  rect : String
  line : String
  length : String
deriving DecidableEq, Repr

/-- The five attributes of ProjectInfo._Dissipative: the pinfo back-reference
and the four dissipative slots of diss_opt. -/
structure Dissipative where
  pinfo : PyVal
  dielectrics_bulk : PyVal
  dielectric_surfaces : PyVal
  resistive_surfaces : PyVal
  seams : PyVal
deriving DecidableEq, Repr

/-- diss_opt from project_info.py. -/
def diss_opt : List String :=
  ["dielectrics_bulk", "dielectric_surfaces", "resistive_surfaces", "seams"]

/-- The ProjectInfo session state: name/path fields, the five tool handles,
the junction and port tables, and the dissipative configuration. -/
structure Session where
  project_path : Option String
  project_name : Option String
  design_name : Option String
  setup_name : Option String
  app : Option Unit
  desktop : Option Unit
  project : Option AnsysProject
  design : Option AnsysDesign
  setup : Option AnsysSetup
  junctions : List (String × Junction)
  ports : List (String × PyVal)
  dissipative : Dissipative
deriving DecidableEq, Repr

/-- The state built by _Dissipative.__init__: every attribute starts as None. -/
def dissipative_init : Dissipative :=
  ⟨PyVal.none, PyVal.none, PyVal.none, PyVal.none, PyVal.none⟩

/-- object.__setattr__(key, value) at the end of _Dissipative.__setitem__. -/
def Dissipative.store (d : Dissipative) (key : String) (v : PyVal) : Dissipative :=
  if key = "pinfo" then { d with pinfo := v }
  else if key = "dielectrics_bulk" then { d with dielectrics_bulk := v }
  else if key = "dielectric_surfaces" then { d with dielectric_surfaces := v }
  else if key = "resistive_surfaces" then { d with resistive_surfaces := v }
  else if key = "seams" then { d with seams := v }
  else d

/-- isinstance(value, (list, dict)). -/
def isCollection : PyVal → Bool
  | PyVal.list _ => true
  | PyVal.dict _ => true
  | _ => false

/-- Iterating a list yields its elements; iterating a dict yields its keys. -/
def collElems : PyVal → List PyAtom
  | PyVal.list xs => xs
  | PyVal.dict ks => ks
  | _ => []

/-- all(isinstance(x, str) for x in value) over the iterated elements. -/
def allStr (xs : List PyAtom) : Bool :=
  xs.all fun x => match x with
    | PyAtom.str _ => true
    | _ => false

/-- Python iteration (for x in value): lists and dicts iterate; None raises
TypeError; other stored values that reach iteration also raise. -/
def pyIter : PyVal → Except PyErr (List PyAtom)
  | PyVal.list xs => Except.ok xs
  | PyVal.dict ks => Except.ok ks
  | PyVal.none => Except.error (PyErr.typeError "NoneType object is not iterable")
  | _ => Except.error (PyErr.typeError "object is not iterable")

/-- hasattr(self[pinfo], design): a ProjectInfo back-reference always has a
design attribute; None (or any other stored value) does not. -/
def hasattrDesign : PyVal → Bool
  | PyVal.pinfoRef => true
  | _ => false

/-- The ValueError message for a bad dissipative value. -/
def dissValueErrMsg (key : String) : String :=
  "dissipative " ++ key ++
    " must be a list of strings containing names of models in the project or dictionary of strings of models containing material loss properties"

/-- The ValueError message for a name missing from the object universe. -/
def notAnObjectMsg (x : String) : String :=
  x ++ " is not an object in the HFSS project"

/-- The per-element existence loop of _Dissipative.__setitem__: each element is
checked against the result of pinfo.get_all_object_names(), queried inside the
loop (so it is only evaluated once the loop body runs). -/
def checkObjects : List PyAtom → Except PyErr (List String) → Dissipative →
    Except PyErr Dissipative
  | [], _, res => Except.ok res
  | x :: rest, objNames, res =>
    match objNames with
    | Except.error e => Except.error e
    | Except.ok objs =>
      match x with
      | PyAtom.str sx =>
        if sx ∈ objs then checkObjects rest objNames res
        else Except.error (PyErr.valueError (notAnObjectMsg sx))
      | _ => Except.error (PyErr.valueError "element is not an object in the HFSS project")

/-- The item write _Dissipative.__setitem__(key, value).  `objectNames` is the
outcome of self[pinfo].get_all_object_names() at write time (an error when
that call itself would raise). -/
def Dissipative.setitem (d : Dissipative) (key : String) (value : PyVal)
    (objectNames : Except PyErr (List String)) : Except PyErr Dissipative :=
  if ¬ (key ∈ diss_opt ∨ key = "pinfo") then
    Except.error (PyErr.valueError ("No such parameter " ++ key))
  else if key ≠ "pinfo" ∧
      ¬ (isCollection value = true ∧ allStr (collElems value) = true) ∧
      value ≠ PyVal.none then
    Except.error (PyErr.valueError (dissValueErrMsg key))
  else if key ≠ "pinfo" ∧ hasattrDesign d.pinfo = true then
    match pyIter value with
    | Except.error e => Except.error e
    | Except.ok elems => checkObjects elems objectNames (d.store key value)
  else
    Except.ok (d.store key value)

/-- ProjectInfo.get_all_variables_names: project-scope plus design-scope
variable names; attribute access on a null project or design raises. -/
def get_all_variables_names (s : Session) : Except PyErr (List String) :=
  match s.project with
  | none => Except.error (PyErr.attributeError "NoneType object has no attribute get_variable_names")
  | some p =>
    match s.design with
    | none => Except.error (PyErr.attributeError "NoneType object has no attribute get_variable_names")
    | some d => Except.ok (p.variable_names ++ d.variable_names)

/-- The five fixed modeler group categories of get_all_object_names. -/
def objectGroupNames : List String :=
  ["Non Model", "Solids", "Unclassified", "Sheets", "Lines"]

/-- The o_objects accumulation loop of get_all_object_names over the five
fixed groups. -/
def allObjectNames (d : AnsysDesign) : List String :=
  objectGroupNames.foldl (fun acc g => acc ++ d.get_objects_in_group g) []

/-- ProjectInfo.get_all_object_names: concatenates the modeler objects of the
five fixed groups; attribute access on a null design raises. -/
def get_all_object_names (s : Session) : Except PyErr (List String) :=
  match s.design with
  | none => Except.error (PyErr.attributeError "NoneType object has no attribute modeler")
  | some d => Except.ok (allObjectNames d)

/-- ProjectInfo.check_connected: true iff setup, design, project, desktop and
app are all non-null. -/
def check_connected (s : Session) : Bool :=
  s.setup.isSome && s.design.isSome && s.project.isSome && s.desktop.isSome && s.app.isSome

/-- The AssertionError message of ProjectInfo.disconnect. -/
def disconnectAssertMsg : String :=
  "It does not appear that you have connected to HFSS yet. Use the connect method."

/-- ProjectInfo.disconnect: asserts check_connected(), then releases project,
desktop, app, and the process-wide ansys binding, in that order.  No session
field is assigned, so the post-state equals the pre-state. -/
def disconnect (s : Session) : Except PyErr Session × List Ev :=
  if check_connected s = true then
    (Except.ok s, [Ev.releaseProject, Ev.releaseDesktop, Ev.releaseApp, Ev.releaseAnsys])
  else
    (Except.error (PyErr.assertionError disconnectAssertMsg), [])

/-- ProjectInfo.get_setup(name): a null name returns null with no state change;
otherwise self.setup is assigned design.get_setup(name); when that is null an
error is logged and the subsequent read of self.setup.name raises an
AttributeError (in Python the raise aborts before the name assignment, so the
error case carries no post-state here). -/
def get_setup (s : Session) (name : Option String) :
    Except PyErr (Session × Option AnsysSetup) :=
  match name with
  | none => Except.ok (s, none)
  | some n =>
    match s.design with
    | none => Except.error (PyErr.attributeError "NoneType object has no attribute get_setup")
    | some d =>
      match d.get_setup n with
      | none => Except.error (PyErr.attributeError "NoneType object has no attribute name")
      | some st => Except.ok ({ s with setup := some st, setup_name := some st.name }, some st)

/-- ProjectInfo.connect_project: stores the factory results in app, desktop and
project; a non-null project writes back its resolved name and path. -/
def connect_project (s : Session) (w : Ansys) : Session :=
  let s1 : Session :=
    { s with app := w.load_app, desktop := w.load_desktop, project := w.load_project }
  match s1.project with
  | some p => { s1 with project_name := some p.name, project_path := some p.path }
  | none => s1

/-- The wrapped error raised when a named design lookup fails. -/
def designLookupErr : PyErr :=
  PyErr.exception "Did you provide the correct design name? Failed to pull up design."

/-- The body of connect_design after the optional design-name override has
been applied to the session. -/
def connect_design_core (s0 : Session) : Except PyErr Session :=
  match s0.project with
  | none => Except.error (PyErr.attributeError "NoneType object has no attribute get_designs")
  | some p =>
    if p.get_designs = [] then Except.ok { s0 with design := none }
    else
      match s0.design_name with
      | none =>
        match p.get_active_design with
        | some d => Except.ok { s0 with design := some d, design_name := some d.name }
        | none => Except.ok { s0 with design := none, design_name := none }
      | some dn =>
        match p.get_design dn with
        | some d => Except.ok { s0 with design := some d }
        | none => Except.error designLookupErr

/-- ProjectInfo.connect_design(design_name): an explicit argument overrides the
stored design name; an empty design list nulls the design; with no stored name
the active design is adopted (falling back to a null design and name); a stored
name that fails to resolve raises the wrapped lookup error. -/
def connect_design (s : Session) (design_name : Option String) :
    Except PyErr Session :=
  match design_name with
  | some dn => connect_design_core { s with design_name := some dn }
  | none => connect_design_core s

/-- The wrapped error raised when the setup-connection block fails. -/
def setupLookupErr : PyErr :=
  PyErr.exception "Did you provide the correct setup name? Failed to pull up setup."

/-- The if/elif chain of connect_setup choosing one default-setup creation call
by solution type; unrecognized solution types create nothing. -/
def createDefault (d : AnsysDesign) : Option (AnsysSetup × AnsysDesign) × List Ev :=
  if d.solution_type = "Eigenmode" then (some d.create_em_setup, [Ev.createEmSetup])
  else if d.solution_type = "DrivenModal" then (some d.create_dm_setup, [Ev.createDmSetup])
  else if d.solution_type = "DrivenTerminal" then (some d.create_dt_setup, [Ev.createDtSetup])
  else if d.solution_type = "Q3D" then (some d.create_q3d_setup, [Ev.createQ3dSetup])
  else (none, [])

/-- The elif branch of connect_setup: when no setup name is stored, adopt the
first listed setup name. -/
def adoptFirstSetupName (s : Session) (d : AnsysDesign) : Session :=
  match s.setup_name with
  | none => { s with setup_name := d.get_setup_names.head? }
  | some _ => s

/-- ProjectInfo.connect_setup: with a null design, setup and its name are
nulled; otherwise, inside a try block whose exceptions are wrapped in
setupLookupErr, an empty setup list triggers default-setup creation (reading
the name of the still-null setup raises for unrecognized solution types), a
missing stored name adopts the first listed setup, and the chosen name is then
resolved through get_setup. -/
def connect_setup (s : Session) : Except PyErr Session × List Ev :=
  match s.design with
  | none => (Except.ok { s with setup := none, setup_name := none }, [])
  | some d =>
    if d.get_setup_names = [] then
      match createDefault d with
      | (some (st, d2), evs) =>
        match get_setup { s with design := some d2, setup_name := some st.name }
            (some st.name) with
        | Except.ok (s3, _) => (Except.ok s3, evs)
        | Except.error _ => (Except.error setupLookupErr, evs)
      | (none, evs) => (Except.error setupLookupErr, evs)
    else
      match get_setup (adoptFirstSetupName s d) (adoptFirstSetupName s d).setup_name with
      | Except.ok (s3, _) => (Except.ok s3, [])
      | Except.error _ => (Except.error setupLookupErr, [])

/-- The except-block body of connect(): best-effort release of project,
desktop, app and the process-wide ansys binding, in that order; a null handle
aborts the sequence with an AttributeError. -/
def connect_teardown (s : Session) : Except PyErr Unit × List Ev :=
  match s.project with
  | none => (Except.error (PyErr.attributeError "NoneType object has no attribute release"), [])
  | some _ =>
    match s.desktop with
    | none => (Except.error (PyErr.attributeError "NoneType object has no attribute release"),
               [Ev.releaseProject])
    | some _ =>
      match s.app with
      | none => (Except.error (PyErr.attributeError "NoneType object has no attribute release"),
                 [Ev.releaseProject, Ev.releaseDesktop])
      | some _ =>
        (Except.ok (),
         [Ev.releaseProject, Ev.releaseDesktop, Ev.releaseApp, Ev.releaseAnsys])

/-- The first half of the finalize block of connect(): a non-null project
writes its resolved name back onto the session. -/
def connect_finalize_project (s : Session) : Session :=
  match s.project with
  | some p => { s with project_name := some p.name }
  | none => s

/-- The second half of the finalize block of connect(): a non-null design
writes its resolved name back onto the session. -/
def connect_finalize_design (s : Session) : Session :=
  match s.design with
  | some d => { s with design_name := some d.name }
  | none => s

/-- The finalize block of connect(): a non-null project or design writes its
resolved name back onto the session. -/
def connect_finalize (s : Session) : Session :=
  connect_finalize_design (connect_finalize_project s)

/-- ProjectInfo.connect: connect_project, then (only with a non-null project)
connect_design guarded by the teardown except-block, then connect_setup
unconditionally, then the finalize block. -/
def connect (s : Session) (w : Ansys) : Except PyErr Session × List Ev :=
  match (connect_project s w).project with
  | none =>
    match connect_setup (connect_project s w) with
    | (Except.ok s3, t) => (Except.ok (connect_finalize s3), t)
    | (Except.error e, t) => (Except.error e, t)
  | some _ =>
    match connect_design (connect_project s w) none with
    | Except.ok s2 =>
      match connect_setup s2 with
      | (Except.ok s3, t) => (Except.ok (connect_finalize s3), t)
      | (Except.error e, t) => (Except.error e, t)
    | Except.error _ =>
      match connect_teardown (connect_project s w) with
      | (Except.error e2, evs) => (Except.error e2, evs)
      | (Except.ok _, evs) =>
        match connect_setup (connect_project s w) with
        | (Except.ok s3, t) => (Except.ok (connect_finalize s3), evs ++ t)
        | (Except.error e, t) => (Except.error e, evs ++ t)

/-- An item-style write on self.dissipative performed through the owning
session: the object universe queried by the existence check is the owning
session's own get_all_object_names. -/
def session_diss_setitem (s : Session) (key : String) (v : PyVal) :
    Except PyErr Session :=
  match Dissipative.setitem s.dissipative key v (get_all_object_names s) with
  | Except.ok d2 => Except.ok { s with dissipative := d2 }
  | Except.error e => Except.error e

/-- The state built by the head of ProjectInfo.__init__: the name/path
arguments recorded, empty junction and port tables, a fresh dissipative
config, and the five handles nulled. -/
def init_base (project_path project_name design_name setup_name : Option String) :
    Session :=
  { project_path := project_path
    project_name := project_name
    design_name := design_name
    setup_name := setup_name
    app := none, desktop := none, project := none, design := none, setup := none
    junctions := []
    ports := []
    dissipative := dissipative_init }

/-- The tail of ProjectInfo.__init__ after the dissipative keyword arguments
have been stored: connect when requested, then bind the dissipative
back-reference. -/
def init_connect_phase (s4 : Session) (do_connect : Bool) (w : Ansys) :
    Except PyErr Session × List Ev :=
  if do_connect then
    match connect s4 w with
    | (Except.ok s5, t) =>
      match session_diss_setitem s5 "pinfo" PyVal.pinfoRef with
      | Except.ok s6 => (Except.ok s6, t)
      | Except.error e => (Except.error e, t)
    | (Except.error e, t) => (Except.error e, t)
  else
    (Except.ok s4, [])

/-- ProjectInfo.__init__: records the name/path arguments, starts with empty
junction and port tables and a fresh dissipative config, stores the four
dissipative keyword arguments through the item-write path (an invalid one
raises out of the constructor), and when do_connect is set runs connect() and
only then binds the dissipative back-reference to the constructed manager. -/
def project_info_init (project_path project_name design_name setup_name : Option String)
    (dielectrics_bulk dielectric_surfaces resistive_surfaces seams : PyVal)
    (do_connect : Bool) (w : Ansys) : Except PyErr Session × List Ev :=
  match session_diss_setitem (init_base project_path project_name design_name setup_name)
      "dielectrics_bulk" dielectrics_bulk with
  | Except.error e => (Except.error e, [])
  | Except.ok s1 =>
    match session_diss_setitem s1 "dielectric_surfaces" dielectric_surfaces with
    | Except.error e => (Except.error e, [])
    | Except.ok s2 =>
      match session_diss_setitem s2 "resistive_surfaces" resistive_surfaces with
      | Except.error e => (Except.error e, [])
      | Except.ok s3 =>
        match session_diss_setitem s3 "seams" seams with
        | Except.error e => (Except.error e, [])
        | Except.ok s4 => init_connect_phase s4 do_connect w

/-- The assertion message of validate_junction_info for a missing Lj variable,
identifying the junction and the offending name. -/
def ljAssertMsg (jjnm lj : String) : String :=
  "pyEPR ProjectInfo user error found: seems like for junction " ++ jjnm ++
    " you specified a design or project variable for Lj_variable that does not exist in HFSS by the name: " ++ lj

/-- The assertion message of validate_junction_info for a missing rect or line
object, identifying the junction, the field and the offending name. -/
def objAssertMsg (jjnm field objname : String) : String :=
  "pyEPR ProjectInfo user error found: seems like for junction " ++ jjnm ++
    " you specified a " ++ field ++ " that does not exist in HFSS by the name: " ++ objname

/-- The per-junction loop of validate_junction_info: for each junction in
order, assert Lj_variable against the variable universe, then rect and line
against the object universe; the first failure raises and aborts the rest. -/
def validateJunctions : List (String × Junction) → List String → List String →
    Except PyErr Unit
  | [], _, _ => Except.ok ()
  | (jjnm, jj) :: rest, vars, objs =>
    if jj.Lj_variable ∈ vars then
      if jj.rect ∈ objs then
        if jj.line ∈ objs then validateJunctions rest vars objs
        else Except.error (PyErr.assertionError (objAssertMsg jjnm "line" jj.line))
      else Except.error (PyErr.assertionError (objAssertMsg jjnm "rect" jj.rect))
    else Except.error (PyErr.assertionError (ljAssertMsg jjnm jj.Lj_variable))

/-- ProjectInfo.validate_junction_info: queries the variable and object
universes, then runs the per-junction assertion loop. -/
def validate_junction_info (s : Session) : Except PyErr Unit :=
  match get_all_variables_names s with
  | Except.error e => Except.error e
  | Except.ok vars =>
    match get_all_object_names s with
    | Except.error e => Except.error e
    | Except.ok objs => validateJunctions s.junctions vars objs

/-- Follows the spec's words (for the refinement statement of the validation
claim): the first failing junction check in registration order, each junction
checked as Lj_variable against the variable universe and then rect and line
against the object universe; reported as (junction, field, offending name). -/
def specFirstViolation : List (String × Junction) → List String → List String →
    Option (String × String × String)
  | [], _, _ => none
  | (jjnm, jj) :: rest, vars, objs =>
    if jj.Lj_variable ∉ vars then some (jjnm, "Lj_variable", jj.Lj_variable)
    else if jj.rect ∉ objs then some (jjnm, "rect", jj.rect)
    else if jj.line ∉ objs then some (jjnm, "line", jj.line)
    else specFirstViolation rest vars objs

/-- A dissipative value passing the type gate of the item write: null, or a
collection whose iterated elements are all strings. -/
def goodDissValue (v : PyVal) : Bool :=
  (isCollection v && allStr (collElems v)) || v == PyVal.none

/-- The metadata collections a connect sequence must not touch. -/
def sameMeta (s s2 : Session) : Prop :=
  s2.junctions = s.junctions ∧ s2.ports = s.ports ∧ s2.dissipative = s.dissipative

/-- The session state produced by connect_setup when it creates a default
setup on a design with an empty setup list. -/
def defaultCreatedSession (s : Session) (d : AnsysDesign) : Session :=
  { s with
    design := some { d with setup_names := d.setup_names ++ [d.default_setup_name] }
    setup_name := some d.default_setup_name
    setup := some ⟨d.default_setup_name⟩ }

/-- A freshly constructed, never-connected session (the state right after
ProjectInfo.__init__ with do_connect false and no arguments). -/
def emptySession : Session :=
  { project_path := none, project_name := none, design_name := none, setup_name := none
    app := none, desktop := none, project := none, design := none, setup := none
    junctions := [], ports := [], dissipative := dissipative_init }

/-- A concrete eigenmode design fixture with one setup. -/
def designA : AnsysDesign :=
  { name := "HfssDesign1"
    solution_type := "Eigenmode"
    setup_names := ["Setup1"]
    variable_names := ["Lj_1"]
    default_setup_name := "Setup1"
    groups := [("Solids", ["jj_rect_1"]), ("Lines", ["jj_line_1"])] }

/-- A concrete project fixture holding designA as its active design. -/
def projectA : AnsysProject :=
  { name := "Project1"
    path := "C:/projects"
    designs := [designA]
    active_design := some designA
    variable_names := ["pvar"] }

/-- A fully connected session fixture over projectA and designA. -/
def connectedSession : Session :=
  { emptySession with
    app := some (), desktop := some ()
    project := some projectA, design := some designA, setup := some ⟨"Setup1"⟩
    project_name := some "Project1", design_name := some "HfssDesign1"
    setup_name := some "Setup1" }

/-- A factory double returning full handles for projectA. -/
def wFull : Ansys :=
  ⟨some (), some (), some projectA⟩

/-- A factory double returning app and desktop handles but no project. -/
def wNoProject : Ansys :=
  ⟨some (), some (), none⟩

/-- A dissipative config whose back-reference is bound to an owning session. -/
def dissAttached : Dissipative :=
  { dissipative_init with pinfo := PyVal.pinfoRef }

/-- A never-connected session that was constructed with an explicit setup
name. -/
def sC4 : Session :=
  { emptySession with setup_name := some "Setup1" }

/-- A design fixture whose solution type is none of the four recognized kinds
and which has no setups. -/
def designUnknown : AnsysDesign :=
  { name := "D2", solution_type := "HFSS Hybrid", setup_names := []
    variable_names := [], default_setup_name := "Setup1", groups := [] }

/-- A session holding designUnknown. -/
def sC3 : Session :=
  { emptySession with design := some designUnknown }

/-- A driven-terminal design fixture with no setups. -/
def designDT : AnsysDesign :=
  { name := "D3", solution_type := "DrivenTerminal", setup_names := []
    variable_names := [], default_setup_name := "Setup1", groups := [] }

/-- A session holding designDT. -/
def sC3W : Session :=
  { emptySession with design := some designDT }

/-- A never-connected session that was constructed with a design name that the
project does not contain. -/
def sC1 : Session :=
  { emptySession with design_name := some "Nope" }

/-- A connected session whose junction table has one junction with a rect name
missing from the object universe. -/
def sW8 : Session :=
  { connectedSession with
    junctions := [("j1", ⟨"Lj_1", none, "missing_rect", "jj_line_1", "100um"⟩)] }

/-- The session state right after connect_project on sC1 and wFull (the
post-project state that the teardown path hands to connect_setup). -/
def c1After : Session :=
  { sC1 with
    app := some ()
    desktop := some ()
    project := some projectA
    project_name := some "Project1"
    project_path := some "C:/projects" }

/-- The session produced by a full default construction against wFull with
do_connect set. -/
def c9WitnessResult : Session :=
  { project_path := some "C:/projects"
    project_name := some "Project1"
    design_name := some "HfssDesign1"
    setup_name := some "Setup1"
    app := some (), desktop := some ()
    project := some projectA, design := some designA, setup := some ⟨"Setup1"⟩
    junctions := [], ports := [], dissipative := dissAttached }

theorem mem_diss_opt_ne_pinfo {key : String} (h : key ∈ diss_opt) : key ≠ "pinfo" := by
  simp [diss_opt] at h
  rcases h with h | h | h | h <;> subst h <;> decide

/-- Claim C6: disconnect raises the precondition AssertionError whenever any of
the five handles is null (in particular on a never-connected session), and when
check_connected holds it releases project, desktop, app and the process-wide
ansys binding, in exactly that order. -/
theorem disconnect_contract (s : Session) :
    (s.setup = none ∨ s.design = none ∨ s.project = none ∨ s.desktop = none ∨
        s.app = none →
      disconnect s = (Except.error (PyErr.assertionError disconnectAssertMsg), [])) ∧
    (check_connected s = true →
      disconnect s =
        (Except.ok s,
         [Ev.releaseProject, Ev.releaseDesktop, Ev.releaseApp, Ev.releaseAnsys])) := by
  constructor
  · intro h
    have hc : check_connected s = false := by
      unfold check_connected
      rcases h with h | h | h | h | h <;> simp [h]
    simp [disconnect, hc]
  · intro h
    simp [disconnect, h]

/-- Witness for C6: a never-connected session has a null setup handle and
disconnect on it raises the precondition AssertionError. -/
theorem disconnect_contract_witness :
    emptySession.setup = none ∧
      disconnect emptySession =
        (Except.error (PyErr.assertionError disconnectAssertMsg), []) :=
  ⟨rfl, (disconnect_contract emptySession).1 (Or.inl rfl)⟩

/-- Counterexample for C5: on a concrete fully connected session, disconnect
succeeds yet none of the handle fields is cleared to null afterwards. -/
theorem disconnect_fields_not_cleared_cex :
    (disconnect connectedSession).1 = Except.ok connectedSession ∧
      connectedSession.app ≠ none ∧ connectedSession.desktop ≠ none ∧
      connectedSession.project ≠ none ∧ connectedSession.design ≠ none ∧
      connectedSession.setup ≠ none := by
  refine ⟨rfl, ?_, ?_, ?_, ?_, ?_⟩ <;> simp [connectedSession, emptySession]

/-- Claim C5 (amended): a successful disconnect releases project, desktop, app
and the process-wide binding in one fixed sequence, but the session handle
fields keep their values (the post-state equals the pre-state; nothing is set
to null). -/
theorem disconnect_post_state (s : Session) (h : check_connected s = true) :
    (disconnect s).1 = Except.ok s ∧
      (disconnect s).2 =
        [Ev.releaseProject, Ev.releaseDesktop, Ev.releaseApp, Ev.releaseAnsys] := by
  simp [disconnect, h]

/-- Witness for C5 (amended): instantiated on the concrete connected session
fixture. -/
theorem disconnect_post_state_witness :
    check_connected connectedSession = true ∧
      (disconnect connectedSession).1 = Except.ok connectedSession ∧
        (disconnect connectedSession).2 =
          [Ev.releaseProject, Ev.releaseDesktop, Ev.releaseApp, Ev.releaseAnsys] :=
  ⟨rfl, disconnect_post_state connectedSession rfl⟩

/-- Claim C2 (code bug): evaluating get_setup at the failing input.  On a
session whose design has no setup of the requested name, the resolution
returns null and the code, after logging, reads the name attribute of the null
setup and raises an AttributeError instead of returning null to the caller. -/
theorem get_setup_missing_raises :
    get_setup connectedSession (some "Setup99") =
      Except.error (PyErr.attributeError "NoneType object has no attribute name") := by
  rfl

theorem validateJunctions_eq_spec (js : List (String × Junction)) (vars objs : List String) :
    validateJunctions js vars objs =
      (match specFirstViolation js vars objs with
       | none => Except.ok ()
       | some (jjnm, field, nm) =>
         Except.error (PyErr.assertionError
           (if field = "Lj_variable" then ljAssertMsg jjnm nm
            else objAssertMsg jjnm field nm))) := by
  induction js with
  | nil => rfl
  | cons hd tl ih =>
    obtain ⟨jjnm, jj⟩ := hd
    by_cases h1 : jj.Lj_variable ∈ vars <;>
      by_cases h2 : jj.rect ∈ objs <;>
        by_cases h3 : jj.line ∈ objs <;>
          simp [validateJunctions, specFirstViolation, h1, h2, h3, ih]

/-- Claim C8: validate_junction_info checks every registered junction in order
(Lj_variable against the variable universe, then rect and line against the
object universe) and the outcome is exactly determined by the first violation:
success when there is none, otherwise an immediate AssertionError naming the
offending junction and field, with all later checks aborted. -/
theorem validate_junction_info_spec (s : Session) (p : AnsysProject) (d : AnsysDesign)
    (hp : s.project = some p) (hd : s.design = some d) :
    validate_junction_info s =
      (match specFirstViolation s.junctions (p.variable_names ++ d.variable_names)
          (allObjectNames d) with
       | none => Except.ok ()
       | some (jjnm, field, nm) =>
         Except.error (PyErr.assertionError
           (if field = "Lj_variable" then ljAssertMsg jjnm nm
            else objAssertMsg jjnm field nm))) := by
  unfold validate_junction_info get_all_variables_names get_all_object_names
  rw [hp, hd]
  exact validateJunctions_eq_spec s.junctions _ _

/-- Witness for C8: on a concrete session whose single junction names a rect
absent from the object universe, validation raises the AssertionError naming
junction j1 and its rect field. -/
theorem validate_junction_info_spec_witness :
    sW8.project = some projectA ∧ sW8.design = some designA ∧
      validate_junction_info sW8 =
        Except.error (PyErr.assertionError (objAssertMsg "j1" "rect" "missing_rect")) :=
  ⟨rfl, rfl, validate_junction_info_spec sW8 projectA designA rfl rfl⟩

theorem validateJunctions_cj_irrel (js : List (String × Junction))
    (g : String × Junction → Option String) (vars objs : List String) :
    validateJunctions (js.map fun e => (e.1, { e.2 with Cj_variable := g e })) vars objs =
      validateJunctions js vars objs := by
  induction js with
  | nil => rfl
  | cons hd tl ih =>
    obtain ⟨jjnm, jj⟩ := hd
    by_cases h1 : jj.Lj_variable ∈ vars <;>
      by_cases h2 : jj.rect ∈ objs <;>
        by_cases h3 : jj.line ∈ objs <;>
          simp [validateJunctions, h1, h2, h3, ih]

/-- Claim C10: validate_junction_info never consults any junction Cj_variable:
rewriting the Cj_variable entry of every junction arbitrarily leaves the
validation outcome unchanged. -/
theorem validate_junction_info_ignores_cj (s : Session)
    (g : String × Junction → Option String) :
    validate_junction_info
        { s with junctions := s.junctions.map fun e => (e.1, { e.2 with Cj_variable := g e }) } =
      validate_junction_info s := by
  unfold validate_junction_info get_all_variables_names get_all_object_names
  cases s.project <;> cases s.design <;>
    simp [validateJunctions_cj_irrel]

theorem checkObjects_all_ok (xs objs : List String) (res : Dissipative)
    (h : ∀ x ∈ xs, x ∈ objs) :
    checkObjects (xs.map PyAtom.str) (Except.ok objs) res = Except.ok res := by
  induction xs with
  | nil => rfl
  | cons x rest ih =>
    simp only [List.map_cons, checkObjects, h x (List.mem_cons_self x rest), if_pos]
    exact ih fun y hy => h y (List.mem_cons_of_mem x hy)

theorem checkObjects_missing_ne_ok (xs objs : List String) (res d2 : Dissipative)
    (h : ∃ x ∈ xs, x ∉ objs) :
    checkObjects (xs.map PyAtom.str) (Except.ok objs) res ≠ Except.ok d2 := by
  induction xs with
  | nil => simp at h
  | cons x rest ih =>
    by_cases hx : x ∈ objs
    · have hrest : ∃ y ∈ rest, y ∉ objs := by
        rcases h with ⟨y, hy, hyn⟩
        rcases List.mem_cons.mp hy with rfl | hmem
        · exact absurd hx hyn
        · exact ⟨y, hmem, hyn⟩
      simpa [checkObjects, hx] using ih hrest
    · simp [checkObjects, hx]

/-- Counterexample for C7: once the back-reference is attached, writing a null
value to a slot is not accepted; iterating the null value raises a TypeError. -/
theorem dissipative_null_write_raises_cex :
    Dissipative.setitem dissAttached "seams" PyVal.none (Except.ok []) =
      Except.error (PyErr.typeError "NoneType object is not iterable") := by
  rfl

/-- Claim C7 (amended): an item write with an unknown key raises with no
mutation; for the four slot keys a value that is neither null nor a collection
of strings raises with no mutation; while no back-reference is attached a null
or all-string-collection value is stored; once the back-reference is attached
the write iterates the value, so a null value raises and a string collection is
stored exactly when every supplied name exists in the object universe queried
at write time. -/
theorem dissipative_setitem_spec (d : Dissipative) (key : String) (v : PyVal)
    (r : Except PyErr (List String)) (objs xs : List String) :
    (¬ (key ∈ diss_opt ∨ key = "pinfo") →
      Dissipative.setitem d key v r =
        Except.error (PyErr.valueError ("No such parameter " ++ key))) ∧
    (key ∈ diss_opt → goodDissValue v = false →
      Dissipative.setitem d key v r =
        Except.error (PyErr.valueError (dissValueErrMsg key))) ∧
    (key ∈ diss_opt → hasattrDesign d.pinfo = false → goodDissValue v = true →
      Dissipative.setitem d key v r = Except.ok (d.store key v)) ∧
    (key ∈ diss_opt → hasattrDesign d.pinfo = true →
      Dissipative.setitem d key PyVal.none r =
        Except.error (PyErr.typeError "NoneType object is not iterable")) ∧
    (key ∈ diss_opt → hasattrDesign d.pinfo = true → (∀ x ∈ xs, x ∈ objs) →
      Dissipative.setitem d key (PyVal.list (xs.map PyAtom.str)) (Except.ok objs) =
        Except.ok (d.store key (PyVal.list (xs.map PyAtom.str)))) ∧
    (key ∈ diss_opt → hasattrDesign d.pinfo = true → (∃ x ∈ xs, x ∉ objs) →
      ∀ d2, Dissipative.setitem d key (PyVal.list (xs.map PyAtom.str)) (Except.ok objs) ≠
        Except.ok d2) := by
  refine ⟨?_, ?_, ?_, ?_, ?_, ?_⟩
  · intro hk
    rw [Dissipative.setitem, if_pos hk]
  · intro hk hv
    have hne := mem_diss_opt_ne_pinfo hk
    have hv2 : ¬ (isCollection v = true ∧ allStr (collElems v) = true) ∧ v ≠ PyVal.none := by
      simp only [goodDissValue, Bool.or_eq_false_iff, Bool.and_eq_false_iff,
        beq_eq_false_iff_ne] at hv
      constructor
      · intro ⟨h1, h2⟩
        rcases hv.1 with h | h
        · rw [h1] at h; exact absurd h (by decide)
        · rw [h2] at h; exact absurd h (by decide)
      · exact hv.2
    rw [Dissipative.setitem, if_neg (not_not_intro (Or.inl hk)),
      if_pos ⟨hne, hv2.1, hv2.2⟩]
  · intro hk hattr hv
    have hne := mem_diss_opt_ne_pinfo hk
    have hcond2 : ¬ (key ≠ "pinfo" ∧
        ¬ (isCollection v = true ∧ allStr (collElems v) = true) ∧ v ≠ PyVal.none) := by
      intro ⟨_, hbad, hvne⟩
      simp only [goodDissValue, Bool.or_eq_true, Bool.and_eq_true, beq_iff_eq] at hv
      rcases hv with h | h
      · exact hbad h
      · exact hvne h
    have hcond3 : ¬ (key ≠ "pinfo" ∧ hasattrDesign d.pinfo = true) := by
      intro ⟨_, h⟩
      rw [hattr] at h
      exact absurd h (by decide)
    rw [Dissipative.setitem, if_neg (not_not_intro (Or.inl hk)), if_neg hcond2,
      if_neg hcond3]
  · intro hk hattr
    have hne := mem_diss_opt_ne_pinfo hk
    have hcond2 : ¬ (key ≠ "pinfo" ∧
        ¬ (isCollection PyVal.none = true ∧ allStr (collElems PyVal.none) = true) ∧
        PyVal.none ≠ PyVal.none) := by
      intro ⟨_, _, hvne⟩
      exact hvne rfl
    rw [Dissipative.setitem, if_neg (not_not_intro (Or.inl hk)), if_neg hcond2,
      if_pos ⟨hne, hattr⟩]
    rfl
  · intro hk hattr hall
    have hne := mem_diss_opt_ne_pinfo hk
    have hgood : isCollection (PyVal.list (xs.map PyAtom.str)) = true ∧
        allStr (collElems (PyVal.list (xs.map PyAtom.str))) = true := by
      constructor
      · rfl
      · simp [collElems, allStr, List.all_eq_true]
    have hcond2 : ¬ (key ≠ "pinfo" ∧
        ¬ (isCollection (PyVal.list (xs.map PyAtom.str)) = true ∧
           allStr (collElems (PyVal.list (xs.map PyAtom.str))) = true) ∧
        PyVal.list (xs.map PyAtom.str) ≠ PyVal.none) := by
      intro ⟨_, hbad, _⟩
      exact hbad hgood
    rw [Dissipative.setitem, if_neg (not_not_intro (Or.inl hk)), if_neg hcond2,
      if_pos ⟨hne, hattr⟩]
    exact checkObjects_all_ok xs objs _ hall
  · intro hk hattr hmiss d2
    have hne := mem_diss_opt_ne_pinfo hk
    have hgood : isCollection (PyVal.list (xs.map PyAtom.str)) = true ∧
        allStr (collElems (PyVal.list (xs.map PyAtom.str))) = true := by
      constructor
      · rfl
      · simp [collElems, allStr, List.all_eq_true]
    have hcond2 : ¬ (key ≠ "pinfo" ∧
        ¬ (isCollection (PyVal.list (xs.map PyAtom.str)) = true ∧
           allStr (collElems (PyVal.list (xs.map PyAtom.str))) = true) ∧
        PyVal.list (xs.map PyAtom.str) ≠ PyVal.none) := by
      intro ⟨_, hbad, _⟩
      exact hbad hgood
    rw [Dissipative.setitem, if_neg (not_not_intro (Or.inl hk)), if_neg hcond2,
      if_pos ⟨hne, hattr⟩]
    exact checkObjects_missing_ne_ok xs objs _ d2 hmiss

/-- Witness for C7 (amended): with no back-reference attached, writing a list
of strings to the seams slot is stored. -/
theorem dissipative_setitem_spec_witness :
    ("seams" ∈ diss_opt) ∧ hasattrDesign dissipative_init.pinfo = false ∧
      goodDissValue (PyVal.list [PyAtom.str "obj1"]) = true ∧
      Dissipative.setitem dissipative_init "seams" (PyVal.list [PyAtom.str "obj1"])
          (Except.ok []) =
        Except.ok (dissipative_init.store "seams" (PyVal.list [PyAtom.str "obj1"])) :=
  ⟨by decide, rfl, rfl,
    (dissipative_setitem_spec dissipative_init "seams" (PyVal.list [PyAtom.str "obj1"])
        (Except.ok []) [] []).2.2.1 (by decide) rfl rfl⟩

/-- Counterexample for C3: on a concrete design with no setups and the
unrecognized solution type HFSS Hybrid, connect_setup raises the wrapped setup
error instead of returning with a null setup. -/
theorem connect_setup_unknown_type_raises_cex :
    connect_setup sC3 = (Except.error setupLookupErr, []) := by
  rfl

/-- Claim C3 (amended): on a connected design with an empty setup list, each of
the four recognized solution types triggers exactly its matching default-setup
creation call and the created setup name is stored and resolved; an
unrecognized solution type creates no default, but connect_setup then raises
the wrapped setup error (reading the name of the still-null setup fails)
rather than returning with a null setup. -/
theorem connect_setup_empty_spec (s : Session) (d : AnsysDesign)
    (hd : s.design = some d) (he : d.setup_names = []) :
    (d.solution_type = "Eigenmode" →
      connect_setup s = (Except.ok (defaultCreatedSession s d), [Ev.createEmSetup])) ∧
    (d.solution_type = "DrivenModal" →
      connect_setup s = (Except.ok (defaultCreatedSession s d), [Ev.createDmSetup])) ∧
    (d.solution_type = "DrivenTerminal" →
      connect_setup s = (Except.ok (defaultCreatedSession s d), [Ev.createDtSetup])) ∧
    (d.solution_type = "Q3D" →
      connect_setup s = (Except.ok (defaultCreatedSession s d), [Ev.createQ3dSetup])) ∧
    (d.solution_type ≠ "Eigenmode" → d.solution_type ≠ "DrivenModal" →
      d.solution_type ≠ "DrivenTerminal" → d.solution_type ≠ "Q3D" →
      connect_setup s = (Except.error setupLookupErr, [])) := by
  refine ⟨?_, ?_, ?_, ?_, ?_⟩
  · intro hst
    simp [connect_setup, hd, AnsysDesign.get_setup_names, he, createDefault, hst,
      AnsysDesign.create_em_setup, AnsysDesign.create_default_setup, get_setup,
      AnsysDesign.get_setup, defaultCreatedSession]
  · intro hst
    simp [connect_setup, hd, AnsysDesign.get_setup_names, he, createDefault, hst,
      AnsysDesign.create_dm_setup, AnsysDesign.create_default_setup, get_setup,
      AnsysDesign.get_setup, defaultCreatedSession]
  · intro hst
    simp [connect_setup, hd, AnsysDesign.get_setup_names, he, createDefault, hst,
      AnsysDesign.create_dt_setup, AnsysDesign.create_default_setup, get_setup,
      AnsysDesign.get_setup, defaultCreatedSession]
  · intro hst
    simp [connect_setup, hd, AnsysDesign.get_setup_names, he, createDefault, hst,
      AnsysDesign.create_q3d_setup, AnsysDesign.create_default_setup, get_setup,
      AnsysDesign.get_setup, defaultCreatedSession]
  · intro h1 h2 h3 h4
    simp [connect_setup, hd, AnsysDesign.get_setup_names, he, createDefault,
      h1, h2, h3, h4]

/-- Witness for C3 (amended): the driven-terminal fixture with no setups gets
exactly one driven-terminal default-setup creation and stores its name. -/
theorem connect_setup_empty_spec_witness :
    sC3W.design = some designDT ∧ designDT.setup_names = [] ∧
      connect_setup sC3W =
        (Except.ok (defaultCreatedSession sC3W designDT), [Ev.createDtSetup]) :=
  ⟨rfl, rfl, (connect_setup_empty_spec sC3W designDT rfl rfl).2.2.1 rfl⟩

/-- Counterexample for C4: with a null project result, connect on a session
constructed with an explicit setup name clears that stored setup name, so
setup state is modified even though the project connection failed. -/
theorem connect_null_project_modifies_state_cex :
    (connect sC4 wNoProject).1.map Session.setup_name = Except.ok none ∧
      sC4.setup_name = some "Setup1" := by
  exact ⟨rfl, rfl⟩

/-- Claim C4 (amended): when connect_project yields a null project handle, the
design-connection step is skipped and no external design or setup call is made
(empty event trace), but connect_setup is still invoked; on a session whose
design handle is null it clears the setup handle and the setup name, and the
resulting session is not connected. -/
theorem connect_null_project_spec (s : Session) (w : Ansys)
    (hw : w.load_project = none) (hd : s.design = none) :
    connect s w =
      (Except.ok { s with
        app := w.load_app
        desktop := w.load_desktop
        project := none, setup := none, setup_name := none }, []) ∧
      check_connected { s with
        app := w.load_app
        desktop := w.load_desktop
        project := none, setup := none, setup_name := none } = false := by
  constructor
  · simp [connect, connect_project, hw, connect_setup, hd, connect_finalize,
      connect_finalize_project, connect_finalize_design]
  · simp [check_connected]

/-- Witness for C4 (amended): instantiated on a fresh session and the
no-project factory double. -/
theorem connect_null_project_spec_witness :
    wNoProject.load_project = none ∧ emptySession.design = none ∧
      (connect emptySession wNoProject =
        (Except.ok { emptySession with
          app := wNoProject.load_app
          desktop := wNoProject.load_desktop
          project := none, setup := none, setup_name := none }, []) ∧
        check_connected { emptySession with
          app := wNoProject.load_app
          desktop := wNoProject.load_desktop
          project := none, setup := none, setup_name := none } = false) :=
  ⟨rfl, rfl, connect_null_project_spec emptySession wNoProject rfl rfl⟩

/-- Claim C1: when the project handle is live but the design connection fails
(an explicitly stored design name that the project cannot resolve), connect
performs the best-effort teardown releasing the project handle, the desktop
handle, the app handle and the process-wide ansys binding, in that order, and
then still proceeds to run connect_setup on the torn-down session instead of
failing fast. -/
theorem connect_design_failure_teardown (s : Session) (w : Ansys) (p : AnsysProject)
    (dn : String)
    (ha : w.load_app = some ()) (hdk : w.load_desktop = some ())
    (hp : w.load_project = some p) (hne : p.designs ≠ [])
    (hdn : s.design_name = some dn) (hmiss : p.get_design dn = none) :
    connect s w =
      (match connect_setup (connect_project s w) with
       | (Except.ok s3, t) =>
         (Except.ok (connect_finalize s3),
          [Ev.releaseProject, Ev.releaseDesktop, Ev.releaseApp, Ev.releaseAnsys] ++ t)
       | (Except.error e, t) =>
         (Except.error e,
          [Ev.releaseProject, Ev.releaseDesktop, Ev.releaseApp, Ev.releaseAnsys] ++ t)) := by
  have hproj : (connect_project s w).project = some p := by
    simp [connect_project, hp]
  have hdes : (connect_project s w).design_name = some dn := by
    simp [connect_project, hp, hdn]
  have hdesk : (connect_project s w).desktop = some () := by
    simp [connect_project, hp, hdk]
  have happ : (connect_project s w).app = some () := by
    simp [connect_project, hp, ha]
  have hcd : connect_design (connect_project s w) none = Except.error designLookupErr := by
    simp [connect_design, connect_design_core, hproj, hdes,
      AnsysProject.get_designs, hne, hmiss]
  have htd : connect_teardown (connect_project s w) =
      (Except.ok (),
       [Ev.releaseProject, Ev.releaseDesktop, Ev.releaseApp, Ev.releaseAnsys]) := by
    simp [connect_teardown, hproj, hdesk, happ]
  unfold connect
  simp only [hproj, hcd, htd]

/-- Witness for C1: the concrete session storing the unresolvable design name
Nope against the full factory double; connect releases all four handles in
order and still runs connect_setup (which, with the design handle still null,
returns the post-project state). -/
theorem connect_design_failure_teardown_witness :
    sC1.design_name = some "Nope" ∧ projectA.get_design "Nope" = none ∧
      connect sC1 wFull =
        (Except.ok c1After,
         [Ev.releaseProject, Ev.releaseDesktop, Ev.releaseApp, Ev.releaseAnsys]) :=
  ⟨rfl, rfl,
    connect_design_failure_teardown sC1 wFull projectA "Nope" rfl rfl rfl
      (by decide) rfl rfl⟩

theorem checkObjects_ok_eq (elems : List PyAtom) (r : Except PyErr (List String))
    (res d2 : Dissipative) (h : checkObjects elems r res = Except.ok d2) : d2 = res := by
  induction elems with
  | nil =>
    simp [checkObjects] at h
    exact h.symm
  | cons x rest ih =>
    cases r with
    | error e => simp [checkObjects] at h
    | ok objs =>
      cases x with
      | str sx =>
        by_cases hx : sx ∈ objs
        · exact ih (by simpa [checkObjects, hx] using h)
        · simp [checkObjects, hx] at h
      | int n => simp [checkObjects] at h

theorem setitem_ok_store (d : Dissipative) (key : String) (v : PyVal)
    (r : Except PyErr (List String)) (d2 : Dissipative)
    (h : Dissipative.setitem d key v r = Except.ok d2) : d2 = d.store key v := by
  unfold Dissipative.setitem at h
  split at h
  · simp at h
  · split at h
    · simp at h
    · split at h
      · split at h
        · simp at h
        · exact checkObjects_ok_eq _ r _ d2 h
      · simp only [Except.ok.injEq] at h
        exact h.symm

theorem store_pinfo_ne (d : Dissipative) (key : String) (v : PyVal)
    (h : key ≠ "pinfo") : (d.store key v).pinfo = d.pinfo := by
  unfold Dissipative.store
  split_ifs <;> simp_all

theorem store_pinfo_eq (d : Dissipative) (v : PyVal) : (d.store "pinfo" v).pinfo = v := by
  simp [Dissipative.store]

theorem session_diss_setitem_fields (s : Session) (key : String) (v : PyVal) (s2 : Session)
    (h : session_diss_setitem s key v = Except.ok s2) :
    s2.junctions = s.junctions ∧ s2.ports = s.ports ∧
      s2.dissipative = s.dissipative.store key v := by
  unfold session_diss_setitem at h
  cases hd : Dissipative.setitem s.dissipative key v (get_all_object_names s) with
  | error e => rw [hd] at h; simp at h
  | ok d2 =>
    rw [hd] at h
    simp only [Except.ok.injEq] at h
    subst h
    exact ⟨rfl, rfl, setitem_ok_store _ _ _ _ _ hd⟩

theorem sameMeta_trans {a b c : Session} (h1 : sameMeta a b) (h2 : sameMeta b c) :
    sameMeta a c :=
  ⟨h2.1.trans h1.1, h2.2.1.trans h1.2.1, h2.2.2.trans h1.2.2⟩

theorem connect_project_meta (s : Session) (w : Ansys) :
    sameMeta s (connect_project s w) := by
  cases hw : w.load_project <;> simp [connect_project, sameMeta, hw]

theorem connect_design_core_meta (s0 s2 : Session)
    (h : connect_design_core s0 = Except.ok s2) : sameMeta s0 s2 := by
  unfold connect_design_core at h
  split at h
  · simp at h
  · split at h
    · simp only [Except.ok.injEq] at h
      subst h
      exact ⟨rfl, rfl, rfl⟩
    · split at h
      · split at h
        · simp only [Except.ok.injEq] at h
          subst h
          exact ⟨rfl, rfl, rfl⟩
        · simp only [Except.ok.injEq] at h
          subst h
          exact ⟨rfl, rfl, rfl⟩
      · split at h
        · simp only [Except.ok.injEq] at h
          subst h
          exact ⟨rfl, rfl, rfl⟩
        · simp at h


theorem connect_design_meta (s : Session) (dn : Option String) (s2 : Session)
    (h : connect_design s dn = Except.ok s2) : sameMeta s s2 := by
  cases dn with
  | none => exact connect_design_core_meta s s2 h
  | some d0 =>
    have m := connect_design_core_meta { s with design_name := some d0 } s2 h
    exact ⟨m.1, m.2.1, m.2.2⟩

theorem get_setup_meta (s : Session) (n : Option String) (s2 : Session)
    (st : Option AnsysSetup) (h : get_setup s n = Except.ok (s2, st)) :
    sameMeta s s2 := by
  unfold get_setup at h
  split at h
  · simp only [Except.ok.injEq, Prod.mk.injEq] at h
    rcases h with ⟨h1, _⟩
    subst h1
    exact ⟨rfl, rfl, rfl⟩
  · split at h
    · simp at h
    · split at h
      · simp at h
      · simp only [Except.ok.injEq, Prod.mk.injEq] at h
        rcases h with ⟨h1, _⟩
        subst h1
        exact ⟨rfl, rfl, rfl⟩

theorem adoptFirstSetupName_meta (s : Session) (d : AnsysDesign) :
    sameMeta s (adoptFirstSetupName s d) := by
  cases hsn : s.setup_name <;> simp [adoptFirstSetupName, sameMeta, hsn]

theorem connect_setup_meta (s s2 : Session) (t : List Ev)
    (h : connect_setup s = (Except.ok s2, t)) : sameMeta s s2 := by
  unfold connect_setup at h
  split at h
  · simp only [Prod.mk.injEq, Except.ok.injEq] at h
    rcases h with ⟨h1, _⟩
    subst h1
    exact ⟨rfl, rfl, rfl⟩
  · rename_i d hd
    split at h
    · split at h
      · rename_i st d2 evs hcre
        split at h
        · rename_i s3 stp hgs
          simp only [Prod.mk.injEq, Except.ok.injEq] at h
          rcases h with ⟨h1, _⟩
          subst h1
          have m := get_setup_meta _ _ _ _ hgs
          exact ⟨m.1, m.2.1, m.2.2⟩
        · simp at h
      · simp at h
    · split at h
      · rename_i s3 stp hgs
        simp only [Prod.mk.injEq, Except.ok.injEq] at h
        rcases h with ⟨h1, _⟩
        subst h1
        exact sameMeta_trans (adoptFirstSetupName_meta s d) (get_setup_meta _ _ _ _ hgs)
      · simp at h

theorem connect_finalize_project_meta (s : Session) :
    sameMeta s (connect_finalize_project s) := by
  cases hp : s.project <;> simp [connect_finalize_project, sameMeta, hp]

theorem connect_finalize_design_meta (s : Session) :
    sameMeta s (connect_finalize_design s) := by
  cases hd : s.design <;> simp [connect_finalize_design, sameMeta, hd]

theorem connect_finalize_meta (s : Session) : sameMeta s (connect_finalize s) :=
  sameMeta_trans (connect_finalize_project_meta s)
    (connect_finalize_design_meta (connect_finalize_project s))

theorem connect_meta (s : Session) (w : Ansys) (s2 : Session) (t : List Ev)
    (h : connect s w = (Except.ok s2, t)) : sameMeta s s2 := by
  unfold connect at h
  split at h
  · split at h
    · rename_i s3 t3 hcs
      simp only [Prod.mk.injEq, Except.ok.injEq] at h
      rcases h with ⟨h1, _⟩
      subst h1
      exact sameMeta_trans (connect_project_meta s w)
        (sameMeta_trans (connect_setup_meta _ _ _ hcs) (connect_finalize_meta s3))
    · simp at h
  · split at h
    · rename_i s2d hcd
      split at h
      · rename_i s3 t3 hcs
        simp only [Prod.mk.injEq, Except.ok.injEq] at h
        rcases h with ⟨h1, _⟩
        subst h1
        exact sameMeta_trans (connect_project_meta s w)
          (sameMeta_trans (connect_design_meta _ _ _ hcd)
            (sameMeta_trans (connect_setup_meta _ _ _ hcs) (connect_finalize_meta s3)))
      · simp at h
    · split at h
      · simp at h
      · rename_i u evs htd
        split at h
        · rename_i s3 t3 hcs
          simp only [Prod.mk.injEq, Except.ok.injEq] at h
          rcases h with ⟨h1, _⟩
          subst h1
          exact sameMeta_trans (connect_project_meta s w)
            (sameMeta_trans (connect_setup_meta _ _ _ hcs) (connect_finalize_meta s3))
        · simp at h

/-- Counterexample for C9: constructing with do_connect false (all other
arguments default, against a fully working factory double) leaves the
dissipative back-reference null, not bound to the manager, so the binding does
not happen regardless of the do_connect flag. -/
theorem project_info_init_no_connect_cex :
    (project_info_init none none none none PyVal.none PyVal.none PyVal.none PyVal.none
        false wFull).1.map (fun s => s.dissipative.pinfo) = Except.ok PyVal.none ∧
      PyVal.none ≠ PyVal.pinfoRef := by
  exact ⟨rfl, by decide⟩

/-- Claim C9 (amended): every successful construction initializes empty
junction and port mappings; the dissipative back-reference starts null and is
bound to the constructed manager only when do_connect is set (right after
connect() returns), remaining null when do_connect is false. -/
theorem project_info_init_spec (pp pn dn sn : Option String)
    (db ds rs sm : PyVal) (dc : Bool) (w : Ansys) (s : Session) (t : List Ev)
    (h : project_info_init pp pn dn sn db ds rs sm dc w = (Except.ok s, t)) :
    s.junctions = [] ∧ s.ports = [] ∧
      s.dissipative.pinfo = (if dc then PyVal.pinfoRef else PyVal.none) := by
  unfold project_info_init at h
  split at h
  · simp at h
  · rename_i s1 h1
    split at h
    · simp at h
    · rename_i s2 h2
      split at h
      · simp at h
      · rename_i s3 h3
        split at h
        · simp at h
        · rename_i s4 h4
          obtain ⟨j1, p1, d1⟩ := session_diss_setitem_fields _ _ _ _ h1
          obtain ⟨j2, p2, d2h⟩ := session_diss_setitem_fields _ _ _ _ h2
          obtain ⟨j3, p3, d3h⟩ := session_diss_setitem_fields _ _ _ _ h3
          obtain ⟨j4, p4, d4h⟩ := session_diss_setitem_fields _ _ _ _ h4
          have hj4 : s4.junctions = [] := by rw [j4, j3, j2, j1]; rfl
          have hp4 : s4.ports = [] := by rw [p4, p3, p2, p1]; rfl
          have hpin4 : s4.dissipative.pinfo = PyVal.none := by
            rw [d4h, store_pinfo_ne _ _ _ (by decide)]
            rw [d3h, store_pinfo_ne _ _ _ (by decide)]
            rw [d2h, store_pinfo_ne _ _ _ (by decide)]
            rw [d1, store_pinfo_ne _ _ _ (by decide)]
            rfl
          unfold init_connect_phase at h
          cases dc with
          | false =>
            rw [if_neg (by decide : ¬ (false = true))] at h
            simp only [Prod.mk.injEq, Except.ok.injEq] at h
            rcases h with ⟨h5, _⟩
            subst h5
            exact ⟨hj4, hp4, by simpa using hpin4⟩
          | true =>
            rw [if_pos (rfl : true = true)] at h
            split at h
            · rename_i s5 t5 hcon
              split at h
              · rename_i s6 hpin
                simp only [Prod.mk.injEq, Except.ok.injEq] at h
                rcases h with ⟨h6, _⟩
                subst h6
                obtain ⟨jm, pm, _⟩ := connect_meta _ _ _ _ hcon
                obtain ⟨j6, p6, d6⟩ := session_diss_setitem_fields _ _ _ _ hpin
                refine ⟨?_, ?_, ?_⟩
                · rw [j6, jm, hj4]
                · rw [p6, pm, hp4]
                · rw [d6, store_pinfo_eq]
                  rfl
              · simp at h
            · simp at h

/-- Witness for C9 (amended): a full default construction with do_connect set
against the working factory double yields the expected session with empty
junction and port tables and the back-reference bound. -/
theorem project_info_init_spec_witness :
    project_info_init none none none none PyVal.none PyVal.none PyVal.none PyVal.none
        true wFull = (Except.ok c9WitnessResult, []) ∧
      (c9WitnessResult.junctions = [] ∧ c9WitnessResult.ports = [] ∧
        c9WitnessResult.dissipative.pinfo =
          (if true then PyVal.pinfoRef else PyVal.none)) :=
  ⟨rfl,
    project_info_init_spec none none none none PyVal.none PyVal.none PyVal.none
      PyVal.none true wFull c9WitnessResult [] rfl⟩
